import Mathlib

/-!
Verification of the image-generation proxy repository.

The development shallowly embeds the two in-scope pieces of the repository:

* the server-side proxy route `POST` of `src/app/api/generate-friendli/route.ts`
  (the "Gateway"), and
* the client-side generation handler `handleGenerateClick` of the page
  component (the "Composer").

JavaScript runtime values that the code inspects are modelled by a small
`Json` type; `await`-able operations that can reject are modelled by
`Except String` carrying the rejection's `message`; the outbound provider
call is modelled by a function argument, and the list of outbound requests
actually issued is returned alongside the response so that "the outbound
call is never attempted" is expressible.  JSON numbers are modelled as
integers (no claim depends on decimal formatting).
-/

/-- A JSON/JavaScript value, as produced by `response.json()`. -/
inductive Json where
  | str (s : String)
  | num (n : Int)
  | bool (b : Bool)
  | null
  | arr (elems : List Json)
  | obj (fields : List (String × Json))

/-- JavaScript truthiness of a defined value (`NaN` is not representable here). -/
def jsTruthy : Json → Bool
  | .str s => s ≠ ""
  | .num n => n ≠ 0
  | .bool b => b
  | .null => false
  | .arr _ => true
  | .obj _ => true

/-- Truthiness of a possibly-`undefined` value (`none` models `undefined`). -/
def jsTruthyOpt : Option Json → Bool
  | none => false
  | some j => jsTruthy j

/-- First binding of `key` in an object's field list. -/
def lookupField : List (String × Json) → String → Option Json
  | [], _ => none
  | (k, v) :: rest, key => if k = key then some v else lookupField rest key

/-- Property access `j.key` on a non-null receiver: objects look the key up;
primitives and arrays have none of the property names this code accesses, so
the access yields `undefined` (`none`).  Callers model the `TypeError` thrown
by access on `null` separately. -/
def jsGetField : Json → String → Option Json
  | .obj fs, key => lookupField fs key
  | _, _ => none

/-- Optional-chained property access `v?.key`: `null`/`undefined` receivers
short-circuit to `undefined`. -/
def jsGetFieldOpt : Option Json → String → Option Json
  | none, _ => none
  | some .null, _ => none
  | some j, key => jsGetField j key

/-- Optional-chained index access `v?.[0]`: arrays yield their head, objects
fall back to the property named "0", strings index to a one-character string,
anything else yields `undefined`. -/
def jsIndexZero : Option Json → Option Json
  | none => none
  | some (.arr xs) => xs.head?
  | some (.obj fs) => lookupField fs "0"
  | some (.str s) => (s.data.head?).map (fun c => Json.str (String.singleton c))
  | some _ => none

mutual

/-- Template-literal string conversion `${v}` of a defined value: strings pass
through, arrays join their elements with commas (`Array.prototype.toString`),
plain objects print as `[object Object]`. -/
def jsToString : Json → String
  | .str s => s
  | .num n => toString n
  | .bool b => cond b "true" "false"
  | .null => "null"
  | .obj _ => "[object Object]"
  | .arr xs => jsArrJoin xs

/-- `Array.prototype.join(",")`: `null` elements print as the empty string. -/
def jsArrJoin : List Json → String
  | [] => ""
  | j :: rest =>
    let s := match j with
      | .null => ""
      | _ => jsToString j
    match rest with
    | [] => s
    | _ => s ++ "," ++ jsArrJoin rest

end

/-- One character of a `JSON.stringify` string literal (the common escapes;
other control characters are left as-is in this model). -/
def jsEscapeChar (c : Char) : String :=
  if c = '"' then "\\\""
  else if c = '\\' then "\\\\"
  else if c = '\n' then "\\n"
  else if c = '\r' then "\\r"
  else if c = '\t' then "\\t"
  else String.singleton c

/-- A `JSON.stringify` string literal. -/
def jsStringLit (s : String) : String :=
  "\"" ++ String.join (s.data.map jsEscapeChar) ++ "\""

mutual

/-- `JSON.stringify` of a value obtained from `response.json()`. -/
def jsonStringify : Json → String
  | .str s => jsStringLit s
  | .num n => toString n
  | .bool b => cond b "true" "false"
  | .null => "null"
  | .arr xs => "[" ++ stringifyElems xs ++ "]"
  | .obj fs => "\x7b" ++ stringifyFields fs ++ "\x7d"

/-- Comma-separated stringified array elements. -/
def stringifyElems : List Json → String
  | [] => ""
  | j :: rest =>
    let s := jsonStringify j
    match rest with
    | [] => s
    | _ => s ++ "," ++ stringifyElems rest

/-- Comma-separated stringified object fields. -/
def stringifyFields : List (String × Json) → String
  | [] => ""
  | (k, v) :: rest =>
    let s := jsStringLit k ++ ":" ++ jsonStringify v
    match rest with
    | [] => s
    | _ => s ++ "," ++ stringifyFields rest

end

/-- One character list starts with another. -/
def startsWithChars : List Char → List Char → Bool
  | [], _ => true
  | _ :: _, [] => false
  | a :: as, b :: bs => a = b && startsWithChars as bs

/-- One character list occurs somewhere inside another. -/
def containsChars (sub : List Char) : List Char → Bool
  | [] => startsWithChars sub []
  | c :: cs => startsWithChars sub (c :: cs) || containsChars sub cs

/-- `String.prototype.includes`: `sub` occurs somewhere in `s`. -/
def strIncludes (s sub : String) : Bool :=
  containsChars sub.data s.data

/-- `String.prototype.trim`, restricted to the ASCII whitespace characters
`Char.isWhitespace` recognises. -/
def jsTrim (s : String) : String :=
  ⟨((s.data.dropWhile Char.isWhitespace).reverse.dropWhile Char.isWhitespace).reverse⟩

/-- `String.prototype.split` on a single-character separator (`acc` holds the
reversed characters of the current piece). -/
def splitOnChar (sep : Char) : List Char → List Char → List String
  | [], acc => [⟨acc.reverse⟩]
  | c :: cs, acc =>
    if c = sep then ⟨acc.reverse⟩ :: splitOnChar sep cs []
    else splitOnChar sep cs (c :: acc)

/-- `Number(s)` for the resolution parts, restricted to unsigned decimal
literals: the empty string converts to 0, a non-numeric string to `NaN`
(modelled as `none`). -/
def jsNumberNat (s : String) : Option Nat :=
  s.data.foldl
    (fun acc c =>
      match acc with
      | none => none
      | some n => if c.isDigit then some (n * 10 + (c.toNat - 48)) else none)
    (some 0)

/-- `Response.ok`: the status is in the range [200, 299]. -/
def responseOk (status : Nat) : Bool :=
  200 ≤ status && status ≤ 299

-- ============================================================================
-- Gateway (src/app/api/generate-friendli/route.ts)
-- ============================================================================

/-- The parsed client request body.  The TypeScript interface declares the
seven payload fields; `model` additionally models a field a caller may supply
in the raw JSON (the interface does not declare it and the handler never reads
it).  Numeric fields are `Option` because the untyped JSON may omit them. -/
structure ClientRequestBody where
  prompt : String
  negative_prompt : Option String
  num_inference_steps : Option Nat
  guidance_scale : Option Rat
  width : Option Nat
  height : Option Nat
  response_format : String
  model : Option String
deriving DecidableEq

/-- The payload sent to the Friendli endpoint (`FriendliApiPayload`). -/
structure FriendliApiPayload where
  model : String
  prompt : String
  negative_prompt : Option String
  num_inference_steps : Option Nat
  guidance_scale : Option Rat
  width : Option Nat
  height : Option Nat
  response_format : String
deriving DecidableEq

/-- Step 2 of the handler: the provider payload copies the client fields 1:1
and takes `model` from the server-held endpoint id. -/
def payloadForFriendli (friendliModelId : String) (clientPayload : ClientRequestBody) :
    FriendliApiPayload :=
  { model := friendliModelId
    prompt := clientPayload.prompt
    negative_prompt := clientPayload.negative_prompt
    num_inference_steps := clientPayload.num_inference_steps
    guidance_scale := clientPayload.guidance_scale
    width := clientPayload.width
    height := clientPayload.height
    response_format := clientPayload.response_format }

/-- The provider's HTTP response.  `jsonResult`/`textResult` are the outcomes
of `await response.json()` / `await response.text()`; `.error m` models a
rejection whose error has message `m`.  `contentType` is
`headers.get("content-type")` (`none` = header absent). -/
structure ProviderResponse where
  status : Nat
  statusText : String
  contentType : Option String
  jsonResult : Except String Json
  textResult : Except String String

/-- The three environment variables the route reads.  A JavaScript env var is
a string or `undefined`; the route only tests falsiness (`!v`) and otherwise
uses the value, so `""` faithfully models both "unset" and "set but empty". -/
structure Config where
  token : String
  endpoint : String
  endpointId : String
deriving DecidableEq

/-- `NextResponse.json(\x7b error: s \x7d)`'s body. -/
def errBody (s : String) : Json :=
  .obj [("error", .str s)]

/-- The outer catch: `error.message || 'Internal Server Error occurred in API
route.'` (an empty message is falsy). -/
def exnMsg (m : String) : String :=
  if m = "" then "Internal Server Error occurred in API route." else m

/-- The error-branch extraction
`errorJson.detail || errorJson.error?.message || errorJson.error ||
JSON.stringify(errorJson)`, applied to a successfully parsed body.  Property
access on `null` throws, which the surrounding `catch` turns into the text
fallback: that case is reported as `none`. -/
def extractErrorDetails (errorJson : Json) : Option String :=
  match errorJson with
  | .null => none
  | _ =>
    let detail := jsGetField errorJson "detail"
    let errField := jsGetField errorJson "error"
    let errMsg := jsGetFieldOpt errField "message"
    if jsTruthy (detail.getD .null) then some (jsToString (detail.getD .null))
    else if jsTruthy (errMsg.getD .null) then some (jsToString (errMsg.getD .null))
    else if jsTruthy (errField.getD .null) then some (jsToString (errField.getD .null))
    else some (jsonStringify errorJson)

/-- The error branch's `errorDetails` value: the structured extraction from
the parsed JSON body, falling back to the raw response text when parsing (or
the property access on a null body) throws, and to the status text when
reading the text also throws. -/
def gatewayErrorDetails (friendliResponse : ProviderResponse) : String :=
  match friendliResponse.jsonResult with
  | .ok errorJson =>
    match extractErrorDetails errorJson with
    | some s => s
    | none =>
      match friendliResponse.textResult with
      | .ok t => t
      | .error _ => friendliResponse.statusText
  | .error _ =>
    match friendliResponse.textResult with
    | .ok t => t
    | .error _ => friendliResponse.statusText

/-- What an invocation of the route produced: the HTTP status and JSON body
returned to the caller, plus the list of outbound provider requests that were
actually issued during the invocation. -/
structure GatewayResult where
  status : Nat
  body : Json
  outboundCalls : List FriendliApiPayload

/-- The route handler `POST`.  `cfg` holds the three environment variables,
`reqBody` is the outcome of `await request.json()` on the incoming request,
and `provider` gives the outcome of `fetch(FRIENDLI_API_ENDPOINT, ...)` for
the outbound payload (a rejection models a network failure). -/
def POST (cfg : Config) (reqBody : Except String ClientRequestBody)
    (provider : FriendliApiPayload → Except String ProviderResponse) : GatewayResult :=
  -- Security checks: each `!v` test fails closed before any parse or fetch.
  if cfg.token = "" then
    ⟨500, errBody "Server configuration error: API token missing.", []⟩
  else if cfg.endpoint = "" then
    ⟨500, errBody "Server configuration error: API endpoint missing.", []⟩
  else if cfg.endpointId = "" then
    ⟨500, errBody "Server configuration error: Endpoint ID missing.", []⟩
  else
    match reqBody with
    | .error m =>
      -- `request.json()` rejected; caught by the outer catch.
      ⟨500, errBody (exnMsg m), []⟩
    | .ok clientPayload =>
      let payload := payloadForFriendli cfg.endpointId clientPayload
      match provider payload with
      | .error m =>
        -- `fetch` rejected; caught by the outer catch.  The call was attempted.
        ⟨500, errBody (exnMsg m), [payload]⟩
      | .ok friendliResponse =>
        if responseOk friendliResponse.status then
          -- Step 5: success branch, keyed on the content type.
          match friendliResponse.contentType with
          | some contentType =>
            if strIncludes contentType "application/json" then
              match friendliResponse.jsonResult with
              | .ok responseData => ⟨200, responseData, [payload]⟩
              | .error m => ⟨500, errBody (exnMsg m), [payload]⟩
            else
              match friendliResponse.textResult with
              | .ok _ =>
                ⟨500, errBody "Received unexpected response format from Friendli API.",
                  [payload]⟩
              | .error m => ⟨500, errBody (exnMsg m), [payload]⟩
          | none =>
            match friendliResponse.textResult with
            | .ok _ =>
              ⟨500, errBody "Received unexpected response format from Friendli API.",
                [payload]⟩
            | .error m => ⟨500, errBody (exnMsg m), [payload]⟩
        else
          -- Step 4: error branch.
          ⟨friendliResponse.status,
            errBody ("Friendli API Error: " ++ gatewayErrorDetails friendliResponse),
            [payload]⟩

-- ============================================================================
-- Composer (the page component's handleGenerateClick)
-- ============================================================================

/-- A client-side history record: `\x7b imageUrl, prompt, timestamp \x7d`.
The stored image URL is the raw value extracted from the response; the
timestamp is an abstract clock value. -/
structure HistoryEntry where
  imageUrl : Json
  prompt : String
  timestamp : Nat

/-- The component state touched by `handleGenerateClick` (the slider states
are the one-element arrays React holds; `steps[0]` on an empty array is
`undefined`, hence `head?`). -/
structure ComposerState where
  prompt : String
  negativePrompt : String
  resolution : String
  steps : List Nat
  guidanceScale : List Rat
  generatedImageUrl : Option Json
  isLoading : Bool
  error : Option String
  lastGeneratedPrompt : Option String
  currentBlobUrl : Option String
  generationHistory : List HistoryEntry

/-- `getResolutionDimensions`: split on `'x'` and convert with `Number`;
a part that is not a natural-number literal (or a missing part) gives `NaN`
(resp. `undefined`), both modelled as `none`. -/
def getResolutionDimensions (resolutionString : String) : Option Nat × Option Nat :=
  match splitOnChar 'x' resolutionString.data [] with
  | w :: h :: _ => (jsNumberNat w, jsNumberNat h)
  | [w] => (jsNumberNat w, none)
  | [] => (none, none)

/-- The payload the Composer posts to the internal API route
(`payloadForApiRoute`): `negative_prompt` is `negativePrompt || undefined`,
steps and guidance come from the slider arrays, width/height from the
resolution string, `response_format` is the literal "url", and no model field
is sent. -/
def payloadForApiRoute (s : ComposerState) : ClientRequestBody :=
  { prompt := s.prompt
    negative_prompt := if s.negativePrompt = "" then none else some s.negativePrompt
    num_inference_steps := s.steps.head?
    guidance_scale := s.guidanceScale.head?
    width := (getResolutionDimensions s.resolution).1
    height := (getResolutionDimensions s.resolution).2
    response_format := "url"
    model := none }

/-- The internal API route's response as the Composer sees it:
`jsonResult` is the outcome of `await internalApiResponse.json()`. -/
structure InternalResp where
  status : Nat
  statusText : String
  jsonResult : Except String Json

/-- The nested extraction `responseData?.data?.[0]?.url`. -/
def imageUrlPath (responseData : Json) : Option Json :=
  jsGetFieldOpt (jsIndexZero (jsGetFieldOpt (some responseData) "data")) "url"

/-- The catch block's display message:
`errorObject.message || "An unexpected error occurred during image generation."`. -/
def exnDisplay (m : String) : String :=
  if m = "" then "An unexpected error occurred during image generation." else m

/-- The message of the error thrown on a non-ok internal response:
`new Error(responseData.error || 'API request failed: ' + statusText)`.
Plain property access on a null body itself throws a `TypeError` (message as
V8 phrases it), which the same catch displays. -/
def clientThrownMsg (responseData : Json) (statusText : String) : String :=
  match responseData with
  | .null => "Cannot read properties of null (reading 'error')"
  | _ =>
    let errField := jsGetField responseData "error"
    if jsTruthy (errField.getD .null) then jsToString (errField.getD .null)
    else "API request failed: " ++ statusText

/-- What one invocation of the handler produced: the final component state and
the list of requests posted to the internal API route. -/
structure GenerateOutcome where
  state : ComposerState
  networkCalls : List ClientRequestBody

/-- The handler `handleGenerateClick`.  `now` is the `new Date()` timestamp,
`net` gives the outcome of `fetch("/api/generate-friendli", ...)` for the
posted payload (a rejection models a network failure). -/
def handleGenerateClick (s : ComposerState) (now : Nat)
    (net : ClientRequestBody → Except String InternalResp) : GenerateOutcome :=
  -- validation: `if (!prompt.trim()) { setError(...); return; }`
  if jsTrim s.prompt = "" then
    ⟨{ s with error := some "Please enter a prompt to generate an image." }, []⟩
  else
    -- set loading, clear previous results/errors, revoke any previous blob URL
    let s1 : ComposerState :=
      { s with isLoading := true, error := none, generatedImageUrl := none,
               lastGeneratedPrompt := none, currentBlobUrl := none }
    let payload := payloadForApiRoute s
    -- every path below runs the `finally`, which clears the loading flag
    match net payload with
    | .error m =>
      -- fetch rejected: caught, error displayed
      ⟨{ s1 with error := some (exnDisplay m), generatedImageUrl := none,
                 isLoading := false }, [payload]⟩
    | .ok internalApiResponse =>
      match internalApiResponse.jsonResult with
      | .error m =>
        -- `internalApiResponse.json()` rejected: caught, error displayed
        ⟨{ s1 with error := some (exnDisplay m), generatedImageUrl := none,
                   isLoading := false }, [payload]⟩
      | .ok responseData =>
        if responseOk internalApiResponse.status then
          match imageUrlPath responseData with
          | some urlVal =>
            if jsTruthy urlVal then
              -- success: set image and prompt-of-record, prepend history
              ⟨{ s1 with
                   generatedImageUrl := some urlVal,
                   lastGeneratedPrompt := some s.prompt,
                   generationHistory :=
                     ⟨urlVal, s.prompt, now⟩ :: s.generationHistory.take 9,
                   isLoading := false }, [payload]⟩
            else
              -- `!imageUrlFromApi`: a falsy url value throws the structure error
              ⟨{ s1 with
                   error := some "API response structure unexpected or missing image URL.",
                   generatedImageUrl := none, isLoading := false }, [payload]⟩
          | none =>
            ⟨{ s1 with
                 error := some "API response structure unexpected or missing image URL.",
                 generatedImageUrl := none, isLoading := false }, [payload]⟩
        else
          -- `throw new Error(responseData.error || ...)`, caught and displayed
          ⟨{ s1 with
               error := some (exnDisplay
                 (clientThrownMsg responseData internalApiResponse.statusText)),
               generatedImageUrl := none, isLoading := false }, [payload]⟩

-- ============================================================================
-- Spec-side definitions (for comparison with the code) and fixtures
-- ============================================================================

/-- The `error` string of a returned `\x7b error: s \x7d` body, when the body
has exactly that shape. -/
def bodyErrorString (body : Json) : Option String :=
  match body with
  | .obj [("error", .str s)] => some s
  | _ => none

/-- Modelled from the claim's words (C2): "the first available field in
priority order: the body's `detail` field, then the nested error-message
field, then the nested error field, then the raw response text, then the
status text". -/
def specFirstAvailable (r : ProviderResponse) : String :=
  let fromJson : Option String :=
    match r.jsonResult with
    | .ok j =>
      match jsGetField j "detail" with
      | some d => some (jsToString d)
      | none =>
        match jsGetFieldOpt (jsGetField j "error") "message" with
        | some m => some (jsToString m)
        | none =>
          match jsGetField j "error" with
          | some e => some (jsToString e)
          | none => none
    | .error _ => none
  match fromJson with
  | some s => s
  | none =>
    match r.textResult with
    | .ok t => t
    | .error _ => r.statusText

/-- The text/status-text fallback of the error branch. -/
def textOrStatusFallback (r : ProviderResponse) : String :=
  match r.textResult with
  | .ok t => t
  | .error _ => r.statusText

/-- The amended C2 error string, stated clause by clause: the truthy `detail`
field, else the truthy nested error-message field, else the truthy `error`
field, else the JSON-stringified body, whenever the body parses as non-null
JSON; the raw response text when the body does not parse as non-null JSON;
and the status text when reading the text also fails. -/
def specAmendedErrorDetails (r : ProviderResponse) : String :=
  match r.jsonResult with
  | .ok .null => textOrStatusFallback r
  | .ok j =>
    let detail := jsGetField j "detail"
    let errField := jsGetField j "error"
    let errMsg := jsGetFieldOpt errField "message"
    if jsTruthy (detail.getD .null) then jsToString (detail.getD .null)
    else if jsTruthy (errMsg.getD .null) then jsToString (errMsg.getD .null)
    else if jsTruthy (errField.getD .null) then jsToString (errField.getD .null)
    else jsonStringify j
  | .error _ => textOrStatusFallback r

/-- The success branch's content-type test,
`contentType && contentType.includes("application/json")`. -/
def contentTypeIsJson : Option String → Bool
  | some contentType => strIncludes contentType "application/json"
  | none => false

/-- A fully configured gateway. -/
def cfgOK : Config :=
  ⟨"test-token", "https://api.friendli.ai/dedicated/v1/images/generations", "flux-model"⟩

/-- A concrete parsed client body. -/
def cpFixture : ClientRequestBody :=
  ⟨"a red cube", none, some 30, some 7, some 1024, some 1024, "url", none⟩

/-- A 429 provider response with a nested error message (end-to-end scenario
2 of the spec). -/
def r429 : ProviderResponse :=
  ⟨429, "Too Many Requests", some "application/json",
    .ok (.obj [("error", .obj [("message", .str "rate limited")])]),
    .ok "\x7b\"error\":\x7b\"message\":\"rate limited\"\x7d\x7d"⟩

/-- A 200 provider response with a non-JSON content type whose body text
cannot be read (both body reads reject). -/
def r200html : ProviderResponse :=
  ⟨200, "OK", some "text/html", .error "Unexpected token < in JSON", .error "boom"⟩

/-- A 200 provider response carrying the expected image-URL JSON. -/
def r200ok : ProviderResponse :=
  ⟨200, "OK", some "application/json",
    .ok (.obj [("data", .arr [.obj [("url", .str "https://x/img.png")]])]),
    .ok "ignored"⟩

/-- A Composer state ready to generate. -/
def sFixture : ComposerState :=
  ⟨"a red cube", "", "1024x1024", [30], [7], none, false, none, none, none, []⟩

/-- The internal route's response on success, as the Composer sees it. -/
def okInternal : InternalResp :=
  ⟨200, "OK", .ok (.obj [("data", .arr [.obj [("url", .str "https://x/img.png")]])])⟩

/-- A 200 internal response whose body lacks `data[0].url`. -/
def badInternal : InternalResp :=
  ⟨200, "OK", .ok (.obj [("data", .arr [])])⟩

-- ============================================================================
-- Theorems
-- ============================================================================

/-- C1: for every Gateway invocation in which any of the three configuration
values is absent, the POST handler returns status 500 with a diagnostic
message naming the missing value, and the outbound call to the provider is
never attempted. -/
theorem config_missing_fails_closed (cfg : Config)
    (reqBody : Except String ClientRequestBody)
    (provider : FriendliApiPayload → Except String ProviderResponse)
    (h : cfg.token = "" ∨ cfg.endpoint = "" ∨ cfg.endpointId = "") :
    (POST cfg reqBody provider).status = 500 ∧
    (POST cfg reqBody provider).outboundCalls = [] ∧
    ((cfg.token = "" ∧ (POST cfg reqBody provider).body =
        errBody "Server configuration error: API token missing.") ∨
     (cfg.endpoint = "" ∧ (POST cfg reqBody provider).body =
        errBody "Server configuration error: API endpoint missing.") ∨
     (cfg.endpointId = "" ∧ (POST cfg reqBody provider).body =
        errBody "Server configuration error: Endpoint ID missing.")) := by
  unfold POST
  by_cases h1 : cfg.token = "" <;> by_cases h2 : cfg.endpoint = "" <;>
    by_cases h3 : cfg.endpointId = "" <;>
    simp [h1, h2, h3] at h ⊢

/-- C1 witness: with the token env var unset, the handler returns 500, names
the token, and issues no outbound call. -/
theorem config_missing_fails_closed_witness :
    (POST ⟨"", "https://e", "mid"⟩ (.ok cpFixture) (fun _ => .ok r200ok)).status = 500 ∧
    (POST ⟨"", "https://e", "mid"⟩ (.ok cpFixture) (fun _ => .ok r200ok)).outboundCalls = [] ∧
    ((("" : String) = "" ∧ (POST ⟨"", "https://e", "mid"⟩ (.ok cpFixture)
        (fun _ => .ok r200ok)).body =
        errBody "Server configuration error: API token missing.") ∨
     (("https://e" : String) = "" ∧ (POST ⟨"", "https://e", "mid"⟩ (.ok cpFixture)
        (fun _ => .ok r200ok)).body =
        errBody "Server configuration error: API endpoint missing.") ∨
     (("mid" : String) = "" ∧ (POST ⟨"", "https://e", "mid"⟩ (.ok cpFixture)
        (fun _ => .ok r200ok)).body =
        errBody "Server configuration error: Endpoint ID missing.")) :=
  config_missing_fails_closed ⟨"", "https://e", "mid"⟩ (.ok cpFixture)
    (fun _ => .ok r200ok) (Or.inl rfl)

/-- The code's error-branch extraction coincides with the clause-by-clause
amended description. -/
theorem gatewayErrorDetails_eq_spec (r : ProviderResponse) :
    gatewayErrorDetails r = specAmendedErrorDetails r := by
  unfold gatewayErrorDetails specAmendedErrorDetails textOrStatusFallback
  rcases hj : r.jsonResult with m | j
  · rfl
  · cases j <;> simp only [extractErrorDetails] <;> split_ifs <;> rfl

/-- C2 counterexample: for provider response `r429` (429 with body
`\x7b"error":\x7b"message":"rate limited"\x7d\x7d`), the first available field
in the claim's priority order is "rate limited", but the returned error string
is "Friendli API Error: rate limited" — the claim's equality fails. -/
theorem provider_error_string_counterexample :
    (POST cfgOK (.ok cpFixture) (fun _ => .ok r429)).status = 429 ∧
    bodyErrorString (POST cfgOK (.ok cpFixture) (fun _ => .ok r429)).body =
      some "Friendli API Error: rate limited" ∧
    specFirstAvailable r429 = "rate limited" ∧
    bodyErrorString (POST cfgOK (.ok cpFixture) (fun _ => .ok r429)).body ≠
      some (specFirstAvailable r429) := by
  refine ⟨rfl, rfl, rfl, ?_⟩
  decide

/-- C2 (amended): for every provider response with status outside [200,300),
the Gateway's returned status equals the provider's status, and the returned
error string is "Friendli API Error: " followed by the first available field
in priority order — the truthy `detail` field, the truthy nested
error-message field, the truthy `error` field, the JSON-stringified body
(when the body parses as non-null JSON but has none of those), the raw
response text (when the body does not parse as non-null JSON), and the status
text (when reading the text also fails). -/
theorem provider_error_forwarding (cfg : Config) (cp : ClientRequestBody)
    (provider : FriendliApiPayload → Except String ProviderResponse)
    (r : ProviderResponse)
    (h1 : cfg.token ≠ "") (h2 : cfg.endpoint ≠ "") (h3 : cfg.endpointId ≠ "")
    (hp : provider (payloadForFriendli cfg.endpointId cp) = .ok r)
    (hs : responseOk r.status = false) :
    (POST cfg (.ok cp) provider).status = r.status ∧
    (POST cfg (.ok cp) provider).body =
      errBody ("Friendli API Error: " ++ specAmendedErrorDetails r) := by
  unfold POST
  rw [if_neg h1, if_neg h2, if_neg h3]
  simp [hp, hs, gatewayErrorDetails_eq_spec]

/-- C2 witness: the amended statement at the concrete 429 response. -/
theorem provider_error_forwarding_witness :
    (POST cfgOK (.ok cpFixture) (fun _ => .ok r429)).status = r429.status ∧
    (POST cfgOK (.ok cpFixture) (fun _ => .ok r429)).body =
      errBody ("Friendli API Error: " ++ specAmendedErrorDetails r429) :=
  provider_error_forwarding cfgOK cpFixture (fun _ => .ok r429) r429
    (by decide) (by decide) (by decide) rfl (by decide)

/-- C3: for every generation attempt with an empty or whitespace-only prompt,
the Composer issues zero network calls and sets the validation error. -/
theorem empty_prompt_no_network (s : ComposerState) (now : Nat)
    (net : ClientRequestBody → Except String InternalResp)
    (h : jsTrim s.prompt = "") :
    (handleGenerateClick s now net).networkCalls = [] ∧
    (handleGenerateClick s now net).state.error =
      some "Please enter a prompt to generate an image." := by
  unfold handleGenerateClick
  simp [h]

/-- C3 witness: a whitespace-only prompt triggers the validation error with no
network call. -/
theorem empty_prompt_no_network_witness :
    (handleGenerateClick { sFixture with prompt := "   " } 5
      (fun _ => .ok okInternal)).networkCalls = [] ∧
    (handleGenerateClick { sFixture with prompt := "   " } 5
      (fun _ => .ok okInternal)).state.error =
      some "Please enter a prompt to generate an image." :=
  empty_prompt_no_network { sFixture with prompt := "   " } 5
    (fun _ => .ok okInternal) (by decide)

/-- C4 counterexample: a 200 provider response with content type `text/html`
whose body text cannot be read is answered with status 500, but the message is
the caught exception's message ("boom"), not the generic one the claim
states. -/
theorem nonjson_generic_message_counterexample :
    responseOk r200html.status = true ∧
    contentTypeIsJson r200html.contentType = false ∧
    (POST cfgOK (.ok cpFixture) (fun _ => .ok r200html)).status = 500 ∧
    bodyErrorString (POST cfgOK (.ok cpFixture) (fun _ => .ok r200html)).body =
      some "boom" ∧
    (some "boom" : Option String) ≠
      some "Received unexpected response format from Friendli API." := by
  refine ⟨rfl, by decide, rfl, rfl, by decide⟩

/-- C4 (amended): for every provider response with status in [200,300): if the
content type contains `application/json` and the body parses, the Gateway
forwards the parsed body unchanged with status 200; if the content type is not
JSON, the Gateway returns status 500 — with the generic message when the
response text is readable, and with the caught exception's message
otherwise. -/
theorem success_response_forwarding (cfg : Config) (cp : ClientRequestBody)
    (provider : FriendliApiPayload → Except String ProviderResponse)
    (r : ProviderResponse)
    (h1 : cfg.token ≠ "") (h2 : cfg.endpoint ≠ "") (h3 : cfg.endpointId ≠ "")
    (hp : provider (payloadForFriendli cfg.endpointId cp) = .ok r)
    (hs : responseOk r.status = true) :
    (∀ ct d, r.contentType = some ct → strIncludes ct "application/json" = true →
      r.jsonResult = .ok d →
      (POST cfg (.ok cp) provider).status = 200 ∧
      (POST cfg (.ok cp) provider).body = d) ∧
    (contentTypeIsJson r.contentType = false →
      (POST cfg (.ok cp) provider).status = 500 ∧
      (POST cfg (.ok cp) provider).body = errBody
        (match r.textResult with
         | .ok _ => "Received unexpected response format from Friendli API."
         | .error m => exnMsg m)) := by
  unfold POST
  rw [if_neg h1, if_neg h2, if_neg h3]
  simp only [hp, hs, if_true]
  constructor
  · intro ct d hct hinc hj
    simp [hct, hinc, hj]
  · intro hct
    rcases hc : r.contentType with _ | c
    · rcases ht : r.textResult with m | t <;> simp [hc, ht]
    · have hinc : strIncludes c "application/json" = false := by
        simpa [contentTypeIsJson, hc] using hct
      rcases ht : r.textResult with m | t <;> simp [hc, hinc, ht]

/-- C4 witness: the amended statement at a 200 JSON response (forwarded
unchanged) — instantiating the JSON clause. -/
theorem success_response_forwarding_witness :
    (POST cfgOK (.ok cpFixture) (fun _ => .ok r200ok)).status = 200 ∧
    (POST cfgOK (.ok cpFixture) (fun _ => .ok r200ok)).body =
      Json.obj [("data", .arr [.obj [("url", .str "https://x/img.png")]])] :=
  (success_response_forwarding cfgOK cpFixture (fun _ => .ok r200ok) r200ok
    (by decide) (by decide) (by decide) rfl (by decide)).1
    "application/json" _ rfl (by decide) rfl

/-- C5: the outbound payload copies the client fields 1:1, takes `model`
exclusively from server-held configuration, and for any two client payloads
differing only in a caller-supplied model field the outbound payload is
identical. -/
theorem model_field_server_only (cfg : Config) (cp : ClientRequestBody)
    (provider : FriendliApiPayload → Except String ProviderResponse)
    (h1 : cfg.token ≠ "") (h2 : cfg.endpoint ≠ "") (h3 : cfg.endpointId ≠ "") :
    (POST cfg (.ok cp) provider).outboundCalls =
      [payloadForFriendli cfg.endpointId cp] ∧
    (payloadForFriendli cfg.endpointId cp).model = cfg.endpointId ∧
    (payloadForFriendli cfg.endpointId cp).prompt = cp.prompt ∧
    (payloadForFriendli cfg.endpointId cp).negative_prompt = cp.negative_prompt ∧
    (payloadForFriendli cfg.endpointId cp).num_inference_steps =
      cp.num_inference_steps ∧
    (payloadForFriendli cfg.endpointId cp).guidance_scale = cp.guidance_scale ∧
    (payloadForFriendli cfg.endpointId cp).width = cp.width ∧
    (payloadForFriendli cfg.endpointId cp).height = cp.height ∧
    (payloadForFriendli cfg.endpointId cp).response_format = cp.response_format ∧
    (∀ m₁ m₂ : Option String,
      payloadForFriendli cfg.endpointId { cp with model := m₁ } =
        payloadForFriendli cfg.endpointId { cp with model := m₂ }) := by
  refine ⟨?_, rfl, rfl, rfl, rfl, rfl, rfl, rfl, rfl, fun m₁ m₂ => rfl⟩
  unfold POST
  rw [if_neg h1, if_neg h2, if_neg h3]
  rcases hp : provider (payloadForFriendli cfg.endpointId cp) with m | fr
  · simp [hp]
  · simp only [hp]
    by_cases hok : responseOk fr.status
    · rcases hc : fr.contentType with _ | c
      · rcases ht : fr.textResult with m | t <;> simp [hok, hc, ht]
      · by_cases hinc : strIncludes c "application/json"
        · rcases hj : fr.jsonResult with m | d <;> simp [hok, hc, hinc, hj]
        · rcases ht : fr.textResult with m | t <;> simp [hok, hc, hinc, ht]
    · simp [hok]

/-- C5 witness: the statement at the concrete configuration and client body. -/
theorem model_field_server_only_witness :
    (POST cfgOK (.ok cpFixture) (fun _ => .ok r200ok)).outboundCalls =
      [payloadForFriendli cfgOK.endpointId cpFixture] ∧
    (payloadForFriendli cfgOK.endpointId cpFixture).model = cfgOK.endpointId ∧
    (payloadForFriendli cfgOK.endpointId cpFixture).prompt = cpFixture.prompt ∧
    (payloadForFriendli cfgOK.endpointId cpFixture).negative_prompt =
      cpFixture.negative_prompt ∧
    (payloadForFriendli cfgOK.endpointId cpFixture).num_inference_steps =
      cpFixture.num_inference_steps ∧
    (payloadForFriendli cfgOK.endpointId cpFixture).guidance_scale =
      cpFixture.guidance_scale ∧
    (payloadForFriendli cfgOK.endpointId cpFixture).width = cpFixture.width ∧
    (payloadForFriendli cfgOK.endpointId cpFixture).height = cpFixture.height ∧
    (payloadForFriendli cfgOK.endpointId cpFixture).response_format =
      cpFixture.response_format ∧
    (∀ m₁ m₂ : Option String,
      payloadForFriendli cfgOK.endpointId { cpFixture with model := m₁ } =
        payloadForFriendli cfgOK.endpointId { cpFixture with model := m₂ }) :=
  model_field_server_only cfgOK cpFixture (fun _ => .ok r200ok)
    (by decide) (by decide) (by decide)

/-- C6: a rejected request-body parse, or an outbound call that throws, is
caught at the top level and answered with status 500 and a JSON body of the
form `\x7b error: <string> \x7d`. -/
theorem exceptions_converted_to_500 (cfg : Config)
    (reqBody : Except String ClientRequestBody)
    (provider : FriendliApiPayload → Except String ProviderResponse)
    (h : (∃ m, reqBody = .error m) ∨ ∀ p, ∃ m, provider p = .error m) :
    (POST cfg reqBody provider).status = 500 ∧
    ∃ s, (POST cfg reqBody provider).body = errBody s := by
  unfold POST
  by_cases h1 : cfg.token = ""
  · rw [if_pos h1]; exact ⟨rfl, _, rfl⟩
  rw [if_neg h1]
  by_cases h2 : cfg.endpoint = ""
  · rw [if_pos h2]; exact ⟨rfl, _, rfl⟩
  rw [if_neg h2]
  by_cases h3 : cfg.endpointId = ""
  · rw [if_pos h3]; exact ⟨rfl, _, rfl⟩
  rw [if_neg h3]
  rcases reqBody with m | cp
  · exact ⟨rfl, _, rfl⟩
  · rcases h with ⟨m, hm⟩ | hall
    · simp at hm
    · obtain ⟨m, hm⟩ := hall (payloadForFriendli cfg.endpointId cp)
      simp only [hm]
      exact ⟨trivial, _, rfl⟩

/-- C6 witness: a failed body parse is answered 500 with an `error` string. -/
theorem exceptions_converted_to_500_witness :
    (POST cfgOK (.error "Unexpected end of JSON input")
      (fun _ => .ok r200ok)).status = 500 ∧
    ∃ s, (POST cfgOK (.error "Unexpected end of JSON input")
      (fun _ => .ok r200ok)).body = errBody s :=
  exceptions_converted_to_500 cfgOK (.error "Unexpected end of JSON input")
    (fun _ => .ok r200ok) (Or.inl ⟨_, rfl⟩)

/-- Branch equation: an empty trimmed prompt only sets the validation error. -/
theorem handleGenerateClick_validation (s : ComposerState) (now : Nat)
    (net : ClientRequestBody → Except String InternalResp)
    (h : jsTrim s.prompt = "") :
    handleGenerateClick s now net =
      ⟨{ s with error := some "Please enter a prompt to generate an image." }, []⟩ := by
  unfold handleGenerateClick
  rw [if_pos h]

/-- Branch equation: the internal fetch rejects. -/
theorem handleGenerateClick_fetch_error (s : ComposerState) (now : Nat)
    (net : ClientRequestBody → Except String InternalResp) (m : String)
    (h : jsTrim s.prompt ≠ "") (hn : net (payloadForApiRoute s) = .error m) :
    handleGenerateClick s now net =
      ⟨{ s with
          isLoading := false, error := some (exnDisplay m),
          generatedImageUrl := none, lastGeneratedPrompt := none,
          currentBlobUrl := none }, [payloadForApiRoute s]⟩ := by
  unfold handleGenerateClick
  rw [if_neg h]
  simp only [hn]

/-- Branch equation: the internal response body fails to parse. -/
theorem handleGenerateClick_json_error (s : ComposerState) (now : Nat)
    (net : ClientRequestBody → Except String InternalResp) (resp : InternalResp)
    (m : String)
    (h : jsTrim s.prompt ≠ "") (hn : net (payloadForApiRoute s) = .ok resp)
    (hj : resp.jsonResult = .error m) :
    handleGenerateClick s now net =
      ⟨{ s with
          isLoading := false, error := some (exnDisplay m),
          generatedImageUrl := none, lastGeneratedPrompt := none,
          currentBlobUrl := none }, [payloadForApiRoute s]⟩ := by
  unfold handleGenerateClick
  rw [if_neg h]
  simp only [hn, hj]

/-- Branch equation: the internal response has a non-ok status. -/
theorem handleGenerateClick_not_ok (s : ComposerState) (now : Nat)
    (net : ClientRequestBody → Except String InternalResp) (resp : InternalResp)
    (d : Json)
    (h : jsTrim s.prompt ≠ "") (hn : net (payloadForApiRoute s) = .ok resp)
    (hj : resp.jsonResult = .ok d) (hok : responseOk resp.status = false) :
    handleGenerateClick s now net =
      ⟨{ s with
          isLoading := false,
          error := some (exnDisplay (clientThrownMsg d resp.statusText)),
          generatedImageUrl := none, lastGeneratedPrompt := none,
          currentBlobUrl := none }, [payloadForApiRoute s]⟩ := by
  unfold handleGenerateClick
  rw [if_neg h]
  simp only [hn, hj, hok, Bool.false_eq_true, if_false]

/-- Branch equation: a 2xx internal response without a truthy `data[0].url`. -/
theorem handleGenerateClick_bad_structure (s : ComposerState) (now : Nat)
    (net : ClientRequestBody → Except String InternalResp) (resp : InternalResp)
    (d : Json)
    (h : jsTrim s.prompt ≠ "") (hn : net (payloadForApiRoute s) = .ok resp)
    (hj : resp.jsonResult = .ok d) (hok : responseOk resp.status = true)
    (hu : jsTruthyOpt (imageUrlPath d) = false) :
    handleGenerateClick s now net =
      ⟨{ s with
          isLoading := false,
          error := some "API response structure unexpected or missing image URL.",
          generatedImageUrl := none, lastGeneratedPrompt := none,
          currentBlobUrl := none }, [payloadForApiRoute s]⟩ := by
  unfold handleGenerateClick
  rw [if_neg h]
  rcases himg : imageUrlPath d with _ | u
  · simp [hn, hj, hok, himg, exnDisplay]
  · have htu : jsTruthy u = false := by simpa [jsTruthyOpt, himg] using hu
    simp [hn, hj, hok, himg, htu, exnDisplay]

/-- Branch equation: the success path. -/
theorem handleGenerateClick_success (s : ComposerState) (now : Nat)
    (net : ClientRequestBody → Except String InternalResp) (resp : InternalResp)
    (d u : Json)
    (h : jsTrim s.prompt ≠ "") (hn : net (payloadForApiRoute s) = .ok resp)
    (hj : resp.jsonResult = .ok d) (hok : responseOk resp.status = true)
    (hu : imageUrlPath d = some u) (ht : jsTruthy u = true) :
    handleGenerateClick s now net =
      ⟨{ s with
          isLoading := false, error := none, generatedImageUrl := some u,
          lastGeneratedPrompt := some s.prompt, currentBlobUrl := none,
          generationHistory := ⟨u, s.prompt, now⟩ :: s.generationHistory.take 9 },
        [payloadForApiRoute s]⟩ := by
  unfold handleGenerateClick
  rw [if_neg h]
  simp [hn, hj, hok, hu, ht]

/-- C7: for every 2xx internal response whose parsed body has no image URL at
`data[0].url`, the Composer raises the normalized structure error (whose text
contains "response structure unexpected") and leaves the displayed image
unset. -/
theorem missing_image_url_normalized_error (s : ComposerState) (now : Nat)
    (net : ClientRequestBody → Except String InternalResp) (resp : InternalResp)
    (d : Json)
    (h : jsTrim s.prompt ≠ "") (hn : net (payloadForApiRoute s) = .ok resp)
    (hok : responseOk resp.status = true) (hj : resp.jsonResult = .ok d)
    (hu : imageUrlPath d = none) :
    (handleGenerateClick s now net).state.error =
      some "API response structure unexpected or missing image URL." ∧
    strIncludes "API response structure unexpected or missing image URL."
      "response structure unexpected" = true ∧
    (handleGenerateClick s now net).state.generatedImageUrl = none := by
  rw [handleGenerateClick_bad_structure s now net resp d h hn hj hok
    (by simp [jsTruthyOpt, hu])]
  exact ⟨rfl, by decide, rfl⟩

/-- C7 witness: a 200 response with body `\x7b data: [] \x7d` yields the
structure error and no displayed image. -/
theorem missing_image_url_normalized_error_witness :
    (handleGenerateClick sFixture 5 (fun _ => .ok badInternal)).state.error =
      some "API response structure unexpected or missing image URL." ∧
    strIncludes "API response structure unexpected or missing image URL."
      "response structure unexpected" = true ∧
    (handleGenerateClick sFixture 5
      (fun _ => .ok badInternal)).state.generatedImageUrl = none :=
  missing_image_url_normalized_error sFixture 5 (fun _ => .ok badInternal)
    badInternal (.obj [("data", .arr [])]) (by decide) rfl (by decide) rfl rfl

/-- C8: the generation history is prepended with `\x7b imageUrl, prompt,
timestamp \x7d` exactly on success (the handler ends with no error), capped by
keeping only the first 9 previous entries; any completion with an error leaves
the history unchanged; from a history of length n ≤ 10 a success yields length
min (n+1) 10. -/
theorem history_prepend_cap (s : ComposerState) (now : Nat)
    (net : ClientRequestBody → Except String InternalResp) :
    ((handleGenerateClick s now net).state.error ≠ none →
      (handleGenerateClick s now net).state.generationHistory =
        s.generationHistory) ∧
    ((handleGenerateClick s now net).state.error = none →
      ∃ url, (handleGenerateClick s now net).state.generatedImageUrl = some url ∧
        (handleGenerateClick s now net).state.generationHistory =
          ⟨url, s.prompt, now⟩ :: s.generationHistory.take 9) ∧
    ((handleGenerateClick s now net).state.error = none →
      s.generationHistory.length ≤ 10 →
      (handleGenerateClick s now net).state.generationHistory.length =
        min (s.generationHistory.length + 1) 10) := by
  by_cases h : jsTrim s.prompt = ""
  · rw [handleGenerateClick_validation s now net h]
    simp
  · rcases hn : net (payloadForApiRoute s) with m | resp
    · rw [handleGenerateClick_fetch_error s now net m h hn]
      simp
    · rcases hj : resp.jsonResult with m | d
      · rw [handleGenerateClick_json_error s now net resp m h hn hj]
        simp
      · cases hok : responseOk resp.status
        · rw [handleGenerateClick_not_ok s now net resp d h hn hj hok]
          simp
        · rcases hu : imageUrlPath d with _ | u
          · rw [handleGenerateClick_bad_structure s now net resp d h hn hj hok
              (by simp [jsTruthyOpt, hu])]
            simp
          · cases ht : jsTruthy u
            · rw [handleGenerateClick_bad_structure s now net resp d h hn hj hok
                (by simp [jsTruthyOpt, hu, ht])]
              simp
            · rw [handleGenerateClick_success s now net resp d u h hn hj hok hu ht]
              refine ⟨by simp, fun _ => ⟨u, rfl, rfl⟩, fun _ _ => ?_⟩
              simp [List.length_take]
              omega

/-- C8 witness: a successful generation from an empty history prepends the
new entry. -/
theorem history_prepend_cap_witness :
    ∃ url,
      (handleGenerateClick sFixture 5
        (fun _ => .ok okInternal)).state.generatedImageUrl = some url ∧
      (handleGenerateClick sFixture 5
        (fun _ => .ok okInternal)).state.generationHistory =
        ⟨url, sFixture.prompt, 5⟩ :: sFixture.generationHistory.take 9 :=
  (history_prepend_cap sFixture 5 (fun _ => .ok okInternal)).2.1 rfl

/-- C9: every completion path past validation — success, gateway error,
malformed response, or thrown exception — clears the in-flight flag, and an
invocation entered with the flag clear never terminates with it set. -/
theorem loading_cleared_on_completion (s : ComposerState) (now : Nat)
    (net : ClientRequestBody → Except String InternalResp) :
    (jsTrim s.prompt ≠ "" →
      (handleGenerateClick s now net).state.isLoading = false) ∧
    (s.isLoading = false →
      (handleGenerateClick s now net).state.isLoading = false) := by
  have hmain : jsTrim s.prompt ≠ "" →
      (handleGenerateClick s now net).state.isLoading = false := by
    intro h
    rcases hn : net (payloadForApiRoute s) with m | resp
    · rw [handleGenerateClick_fetch_error s now net m h hn]
    · rcases hj : resp.jsonResult with m | d
      · rw [handleGenerateClick_json_error s now net resp m h hn hj]
      · cases hok : responseOk resp.status
        · rw [handleGenerateClick_not_ok s now net resp d h hn hj hok]
        · rcases hu : imageUrlPath d with _ | u
          · rw [handleGenerateClick_bad_structure s now net resp d h hn hj hok
              (by simp [jsTruthyOpt, hu])]
          · cases ht : jsTruthy u
            · rw [handleGenerateClick_bad_structure s now net resp d h hn hj hok
                (by simp [jsTruthyOpt, hu, ht])]
            · rw [handleGenerateClick_success s now net resp d u h hn hj hok hu ht]
  refine ⟨hmain, fun hL => ?_⟩
  by_cases h : jsTrim s.prompt = ""
  · rw [handleGenerateClick_validation s now net h]
    exact hL
  · exact hmain h

/-- C9 witness: a successful completion ends with the loading flag clear. -/
theorem loading_cleared_on_completion_witness :
    (handleGenerateClick sFixture 5 (fun _ => .ok okInternal)).state.isLoading =
      false :=
  (loading_cleared_on_completion sFixture 5 (fun _ => .ok okInternal)).1
    (by decide)

/-- C10: whenever the Composer issues a request, the posted payload's
`negative_prompt` is absent exactly when the negative-prompt text is empty,
equals the text when non-empty, and is never the empty string. -/
theorem negative_prompt_omitted_when_empty (s : ComposerState) (now : Nat)
    (net : ClientRequestBody → Except String InternalResp)
    (h : jsTrim s.prompt ≠ "") :
    (handleGenerateClick s now net).networkCalls = [payloadForApiRoute s] ∧
    ((payloadForApiRoute s).negative_prompt = none ↔ s.negativePrompt = "") ∧
    (s.negativePrompt ≠ "" →
      (payloadForApiRoute s).negative_prompt = some s.negativePrompt) ∧
    (payloadForApiRoute s).negative_prompt ≠ some "" := by
  refine ⟨?_, ?_, ?_, ?_⟩
  · rcases hn : net (payloadForApiRoute s) with m | resp
    · rw [handleGenerateClick_fetch_error s now net m h hn]
    · rcases hj : resp.jsonResult with m | d
      · rw [handleGenerateClick_json_error s now net resp m h hn hj]
      · cases hok : responseOk resp.status
        · rw [handleGenerateClick_not_ok s now net resp d h hn hj hok]
        · rcases hu : imageUrlPath d with _ | u
          · rw [handleGenerateClick_bad_structure s now net resp d h hn hj hok
              (by simp [jsTruthyOpt, hu])]
          · cases ht : jsTruthy u
            · rw [handleGenerateClick_bad_structure s now net resp d h hn hj hok
                (by simp [jsTruthyOpt, hu, ht])]
            · rw [handleGenerateClick_success s now net resp d u h hn hj hok hu ht]
  · by_cases he : s.negativePrompt = "" <;> simp [payloadForApiRoute, he]
  · intro he
    simp [payloadForApiRoute, he]
  · by_cases he : s.negativePrompt = "" <;> simp [payloadForApiRoute, he]

/-- C10 witness: with a non-empty negative prompt the field is sent verbatim;
the concrete fixture also shows the other conjuncts. -/
theorem negative_prompt_omitted_when_empty_witness :
    (handleGenerateClick { sFixture with negativePrompt := "blurry" } 5
      (fun _ => .ok okInternal)).networkCalls =
      [payloadForApiRoute { sFixture with negativePrompt := "blurry" }] ∧
    ((payloadForApiRoute { sFixture with negativePrompt := "blurry" }).negative_prompt =
        none ↔ ({ sFixture with negativePrompt := "blurry" } : ComposerState).negativePrompt = "") ∧
    (({ sFixture with negativePrompt := "blurry" } : ComposerState).negativePrompt ≠ "" →
      (payloadForApiRoute { sFixture with negativePrompt := "blurry" }).negative_prompt =
        some ({ sFixture with negativePrompt := "blurry" } : ComposerState).negativePrompt) ∧
    (payloadForApiRoute { sFixture with negativePrompt := "blurry" }).negative_prompt ≠
      some "" :=
  negative_prompt_omitted_when_empty { sFixture with negativePrompt := "blurry" } 5
    (fun _ => .ok okInternal) (by decide)
